import Mathlib

/-
Verification of the evidence-extraction and aggregation engine of the
parca_simplified repository (a set of Python scripts that extract CMML
clinical-outcome data from literature records and aggregate per-drug
statistics).  Python floats are embedded as rationals, `None` as
`Option.none`, and Python dicts as structures with `Option` fields.
-/

namespace Parca

/-! ### Python primitives -/

/-- Python `v or d` for an optional numeric `v`: `None` and the falsy value
`0.0` both yield `d`; any other number yields itself.  Models expressions
such as `study.get("complete_response") or 0` in `analyze_data.py`. -/
def pyOr (v : Option ℚ) (d : ℚ) : ℚ :=
  match v with
  | none => d
  | some x => if x = 0 then d else x

/-- Python `round` at integer precision: round half to even. -/
def roundHalfEven (q : ℚ) : ℤ :=
  let f := ⌊q⌋
  if q - f < 1 / 2 then f
  else if 1 / 2 < q - f then f + 1
  else if f % 2 = 0 then f else f + 1

/-- Python `round(q, 2)`: round half to even at two decimal places. -/
def round2 (q : ℚ) : ℚ :=
  (roundHalfEven (q * 100) : ℚ) / 100

/-- `statistics.mean`: arithmetic mean (callers only use it on nonempty
lists; on `[]` the Python function raises and this model returns `0`). -/
def pymean (l : List ℚ) : ℚ :=
  l.sum / (l.length : ℚ)

/-- The sorted rearrangement used by `statistics.median` (`sorted(data)`). -/
def sortQ (l : List ℚ) : List ℚ :=
  l.insertionSort (fun a b => a ≤ b)

/-- `statistics.median`: middle element of the sorted list for odd length,
arithmetic mean of the two central elements for even length.  Callers only
use it on nonempty lists; on `[]` Python raises and this model returns 0. -/
def pymedian (l : List ℚ) : ℚ :=
  let s := sortQ l
  let n := l.length
  if n % 2 = 1 then s.getD (n / 2) 0
  else (s.getD (n / 2 - 1) 0 + s.getD (n / 2) 0) / 2

/-- Python `min` on a nonempty list (callers guard against `[]`). -/
def listMin : List ℚ → ℚ
  | [] => 0
  | x :: xs => xs.foldl min x

/-- Python `max` on a nonempty list (callers guard against `[]`). -/
def listMax : List ℚ → ℚ
  | [] => 0
  | x :: xs => xs.foldl max x

/-! ### analyze_data.py : data model and aggregation -/

/-- A study record as read by `analyze_data.py` from the detailed-outcomes
JSON: the numeric keys accessed by `analyze_data` / `get_orr`, each
optional (`study.get(key)` gives `None` for an absent or null key). -/
structure Study where
  complete_response : Option ℚ
  partial_response : Option ℚ
  marrow_complete_response : Option ℚ
  sae_frequency : Option ℚ
  pfs_median : Option ℚ
  os_median : Option ℚ
  deriving DecidableEq

/-- `analyze_data.get_orr`: composite overall-response-rate, summing the
three response components with Python `or 0` null handling. -/
def get_orr (study : Study) : ℚ :=
  let cr := pyOr study.complete_response 0
  let pr := pyOr study.partial_response 0
  let mcr := pyOr study.marrow_complete_response 0
  cr + pr + mcr

/-- A value in the dict returned by `calculate_stats`: either the string
sentinel `"N/A"` or a number. -/
inductive StatValue where
  | na
  | num (q : ℚ)
  deriving DecidableEq

/-- Result dict of `analyze_data.calculate_stats`. -/
structure CalcStats where
  mean : StatValue
  median : StatValue
  deriving DecidableEq

/-- `analyze_data.calculate_stats`: `"N/A"` sentinels for an empty input or
an input whose non-null filtering is empty, otherwise mean and median of
the filtered values rounded to two decimals. -/
def calculate_stats (data : List (Option ℚ)) : CalcStats :=
  if data.isEmpty then { mean := StatValue.na, median := StatValue.na }
  else
    let filtered_data := data.filterMap id
    if filtered_data.isEmpty then { mean := StatValue.na, median := StatValue.na }
    else
      { mean := StatValue.num (round2 (pymean filtered_data))
      , median := StatValue.num (round2 (pymedian filtered_data)) }

/-- The per-product block of `analyze_data.analyze_data`. -/
structure ProductStats where
  efficacyCR : CalcStats
  efficacyORR : CalcStats
  adverseSAE : CalcStats
  pfs : CalcStats
  os : CalcStats
  deriving DecidableEq

/-- The per-product loop body of `analyze_data.analyze_data`: metric value
lists are drawn straight from the study records (ORR values are computed by
`get_orr` and are always present, i.e. never `None`), then each list is
aggregated by `calculate_stats`. -/
def productStats (studies : List Study) : ProductStats :=
  let cr_rates := studies.map (fun s => s.complete_response)
  let orr_rates := studies.map (fun s => some (get_orr s))
  let sae_frequencies := studies.map (fun s => s.sae_frequency)
  let pfs_medians := studies.map (fun s => s.pfs_median)
  let os_medians := studies.map (fun s => s.os_median)
  { efficacyCR := calculate_stats cr_rates
  , efficacyORR := calculate_stats orr_rates
  , adverseSAE := calculate_stats sae_frequencies
  , pfs := calculate_stats pfs_medians
  , os := calculate_stats os_medians }

/-- The JSON input of `analyze_data.analyze_data`: one study list per drug. -/
structure OutcomesData where
  azacitidine : List Study
  decitabine : List Study
  hydroxyurea : List Study
  deriving DecidableEq

/-- The combined-rollup block of `analyze_data.analyze_data` (no SAE entry
in the combined section, exactly as in the source). -/
structure CombinedStats where
  efficacyCR : CalcStats
  efficacyORR : CalcStats
  pfs : CalcStats
  os : CalcStats
  deriving DecidableEq

/-- The `azacitidine_decitabine_combined` section of
`analyze_data.analyze_data`: the two study lists are concatenated first and
the same per-metric aggregation is applied to the concatenation. -/
def analyze_combined (data : OutcomesData) : CombinedStats :=
  let aza_dec_studies := data.azacitidine ++ data.decitabine
  let cr_rates_combined := aza_dec_studies.map (fun s => s.complete_response)
  let orr_rates_combined := aza_dec_studies.map (fun s => some (get_orr s))
  let pfs_medians_combined := aza_dec_studies.map (fun s => s.pfs_median)
  let os_medians_combined := aza_dec_studies.map (fun s => s.os_median)
  { efficacyCR := calculate_stats cr_rates_combined
  , efficacyORR := calculate_stats orr_rates_combined
  , pfs := calculate_stats pfs_medians_combined
  , os := calculate_stats os_medians_combined }

/-- Full result of `analyze_data.analyze_data`. -/
structure AnalysisResults where
  azacitidine : ProductStats
  decitabine : ProductStats
  hydroxyurea : ProductStats
  azacitidine_decitabine_combined : CombinedStats
  deriving DecidableEq

/-- `analyze_data.analyze_data` over the loaded JSON data. -/
def analyze_data (data : OutcomesData) : AnalysisResults :=
  { azacitidine := productStats data.azacitidine
  , decitabine := productStats data.decitabine
  , hydroxyurea := productStats data.hydroxyurea
  , azacitidine_decitabine_combined := analyze_combined data }

/-- Spec-side definition for the multi-drug rollup, following the spec
wording: take the union (concatenation) of the two drugs' record sets, then
apply the same per-metric aggregation to the pooled set. -/
def combinedPerSpec (aza dec : List Study) : CombinedStats :=
  let pooled := aza ++ dec
  { efficacyCR := calculate_stats (pooled.map (fun s => s.complete_response))
  , efficacyORR := calculate_stats (pooled.map (fun s => some (get_orr s)))
  , pfs := calculate_stats (pooled.map (fun s => s.pfs_median))
  , os := calculate_stats (pooled.map (fun s => s.os_median)) }

/-! ### comprehensive_efficacy_analysis.py : safe_stats -/

/-- Result dict of `comprehensive_efficacy_analysis.safe_stats`.  The
`std` entry of the source (a floating-point square root) is not
representable over ℚ and no claim concerns it, so it is omitted; `values`
models the key present only in the nonempty branch (absent key ≙ `[]`). -/
structure SafeStats where
  count : ℕ
  median : Option ℚ
  mean : Option ℚ
  min : Option ℚ
  max : Option ℚ
  values : List ℚ
  deriving DecidableEq

/-- The explicit no-data sentinel returned by `safe_stats` for an empty
collection: zero count and `None` for every statistic. -/
def noDataStats : SafeStats :=
  { count := 0, median := none, mean := none, min := none, max := none, values := [] }

/-- `comprehensive_efficacy_analysis.safe_stats`: drop `None` entries
(`NaN` has no rational counterpart and is not modelled), return the no-data
sentinel when nothing remains, otherwise count/median/mean/min/max of the
clean values rounded to two decimals. -/
def safe_stats (values : List (Option ℚ)) : SafeStats :=
  let clean_values := values.filterMap id
  if clean_values.isEmpty then noDataStats
  else
    { count := clean_values.length
    , median := some (round2 (pymedian clean_values))
    , mean := some (round2 (pymean clean_values))
    , min := some (round2 (listMin clean_values))
    , max := some (round2 (listMax clean_values))
    , values := clean_values }

/-! ### main.py : paper deduplication in process_drug_research -/

/-- A search-result record as deduplicated by
`CMMLResearchExtractor.process_drug_research`.  The loop inspects only the
`pmid` key; `confidence` and `populated` stand for the rest of the record's
data (trust score, number of non-null numeric fields), which the loop never
reads. -/
structure PaperRec where
  pmid : String
  confidence : ℚ
  populated : ℕ
  deriving DecidableEq

/-- The accumulation loop of `process_drug_research`: walk the incoming
papers, keep a paper only when its `pmid` has not been seen before, and
record seen pmids. -/
def dedupLoop : List PaperRec → List String → List PaperRec
  | [], _ => []
  | p :: ps, seen_pmids =>
    if p.pmid ∈ seen_pmids then dedupLoop ps seen_pmids
    else p :: dedupLoop ps (p.pmid :: seen_pmids)

/-- Deduplication of the collected search results in
`process_drug_research`, starting from an empty seen set. -/
def dedupPapers (papers : List PaperRec) : List PaperRec :=
  dedupLoop papers []

/-! ### main.py : pattern extractor and extraction coordinator -/

/-- Whether `pat` occurs at the front of `text` (over character lists). -/
def charsStartWith : List Char → List Char → Bool
  | [], _ => true
  | _ :: _, [] => false
  | c :: cs, d :: ds => (c = d) && charsStartWith cs ds

/-- Whether `pat` occurs anywhere inside `text` (over character lists). -/
def charsContain (text pat : List Char) : Bool :=
  match text with
  | [] => pat.isEmpty
  | _ :: rest => charsStartWith pat text || charsContain rest pat

/-- Python substring membership `sub in s`. -/
def strContains (s sub : String) : Bool :=
  charsContain s.data sub.data

/-- Python `s.lower()`. -/
def lowerStr (s : String) : String :=
  String.mk (s.data.map Char.toLower)

/-- The behaviour of one regular-expression probe: given a pattern source
string and the text, the float conversion of the first match's capture
group, or `none` when `re.search` finds no match or `float(m.group(1))`
fails (both cases make `find_pct` / `find_months` move on to the next
pattern).  Regex semantics are external to this model, so the matcher is a
parameter; concrete instantiations below record actual `re.search`
outcomes. -/
def Matcher : Type :=
  String → String → Option ℚ

/-- First pattern of the CR probe list in `extract_with_regex`. -/
def crRegex1 : String := "\\bcomplete\\s+response[^\\d%]*([0-9]+(?:\\.[0-9]+)?)%"

/-- Second pattern of the CR probe list. -/
def crRegex2 : String := "\\bCR\\b[^\\d%]*([0-9]+(?:\\.[0-9]+)?)%"

/-- Third pattern of the CR probe list. -/
def crRegex3 : String := "([0-9]+(?:\\.[0-9]+)?)%[^\\n\\r]*\\b(complete\\s+response|CR)\\b"

/-- CR patterns of `extract_with_regex`, in source priority order. -/
def crPatterns : List String := [crRegex1, crRegex2, crRegex3]

/-- PR patterns of `extract_with_regex`, in source priority order. -/
def prPatterns : List String :=
  [ "\\bpartial\\s+response[^\\d%]*([0-9]+(?:\\.[0-9]+)?)%"
  , "\\bPR\\b[^\\d%]*([0-9]+(?:\\.[0-9]+)?)%"
  , "([0-9]+(?:\\.[0-9]+)?)%[^\\n\\r]*\\b(partial\\s+response|PR)\\b" ]

/-- Marrow-CR patterns of `extract_with_regex`. -/
def mcrPatterns : List String :=
  [ "\\bmarrow\\s+complete\\s+response[^\\d%]*([0-9]+(?:\\.[0-9]+)?)%"
  , "\\bmCR\\b[^\\d%]*([0-9]+(?:\\.[0-9]+)?)%" ]

/-- Marrow-optimal-response patterns of `extract_with_regex`. -/
def morPatterns : List String :=
  [ "\\bmarrow\\s+optimal\\s+response[^\\d%]*([0-9]+(?:\\.[0-9]+)?)%"
  , "\\bmOR\\b[^\\d%]*([0-9]+(?:\\.[0-9]+)?)%" ]

/-- ORR patterns of `extract_with_regex`. -/
def orrPatterns : List String :=
  [ "overall\\s+response\\s+rate[^\\d%]*([0-9]+(?:\\.[0-9]+)?)%"
  , "\\bORR\\b[^\\d%]*([0-9]+(?:\\.[0-9]+)?)%"
  , "([0-9]+(?:\\.[0-9]+)?)%[^\\n\\r]*overall\\s+response\\s+rate" ]

/-- Overall-survival patterns of `extract_with_regex`. -/
def osPatterns : List String :=
  [ "median\\s+overall\\s+survival[^\\d]*([0-9]+(?:\\.[0-9]+)?)\\s*months"
  , "\\bOS\\b[^\\d]*([0-9]+(?:\\.[0-9]+)?)\\s*months" ]

/-- Progression-free-survival patterns of `extract_with_regex`. -/
def pfsPatterns : List String :=
  [ "median\\s+progression[- ]free\\s+survival[^\\d]*([0-9]+(?:\\.[0-9]+)?)\\s*months"
  , "\\bPFS\\b[^\\d]*([0-9]+(?:\\.[0-9]+)?)\\s*months" ]

/-- Event-free-survival patterns of `extract_with_regex`. -/
def efsPatterns : List String :=
  [ "median\\s+event[- ]free\\s+survival[^\\d]*([0-9]+(?:\\.[0-9]+)?)\\s*months"
  , "\\bEFS\\b[^\\d]*([0-9]+(?:\\.[0-9]+)?)\\s*months" ]

/-- Serious-adverse-event patterns of `extract_with_regex`. -/
def saePatterns : List String :=
  [ "serious\\s+adverse\\s+events?[^\\d%]*([0-9]+(?:\\.[0-9]+)?)%"
  , "\\bSAEs?\\b[^\\d%]*([0-9]+(?:\\.[0-9]+)?)%" ]

/-- `find_pct` inside `extract_with_regex`: probe the patterns in order and
return the first successful capture; `none` when every probe fails. -/
def find_pct (M : Matcher) (patterns : List String) (text : String) : Option ℚ :=
  match patterns with
  | [] => none
  | rx :: rest =>
    match M rx text with
    | some v => some v
    | none => find_pct M rest text

/-- `find_months` inside `extract_with_regex`: identical first-match scan
(kept as its own definition, mirroring the source). -/
def find_months (M : Matcher) (patterns : List String) (text : String) : Option ℚ :=
  match patterns with
  | [] => none
  | rx :: rest =>
    match M rx text with
    | some v => some v
    | none => find_months M rest text

/-- The per-subgroup dict (`ras_mutant_outcomes` / `non_ras_mutant_outcomes`)
of the extraction payload. -/
structure RasOutcomes where
  cr_rate : Option ℚ
  pr_rate : Option ℚ
  mcr_rate : Option ℚ
  mor_rate : Option ℚ
  os_median : Option ℚ
  pfs_median : Option ℚ
  efs_median : Option ℚ
  sae_rate : Option ℚ
  deriving DecidableEq

/-- The all-null subgroup dict built by the regex fallback. -/
def RasOutcomes.allNull : RasOutcomes :=
  { cr_rate := none, pr_rate := none, mcr_rate := none, mor_rate := none
  , os_median := none, pfs_median := none, efs_median := none, sae_rate := none }

/-- The payload dict produced by `extract_clinical_data` /
`extract_with_regex` in `main.py` (the keys consumed downstream by
`process_drug_research`). -/
structure ExtractPayload where
  drug_name : String
  complete_response_rate : Option ℚ
  partial_response_rate : Option ℚ
  marrow_complete_response_rate : Option ℚ
  marrow_optimal_response_rate : Option ℚ
  pfs_median_months : Option ℚ
  os_median_months : Option ℚ
  efs_median_months : Option ℚ
  sae_frequency_percent : Option ℚ
  ras_mutant_outcomes : RasOutcomes
  non_ras_mutant_outcomes : RasOutcomes
  cmml_sample_size : Option ℤ
  ras_mutant_sample_size : Option ℤ
  non_ras_mutant_sample_size : Option ℤ
  study_type : String
  has_cmml_data : Bool
  key_findings : String
  patient_population : String
  treatment_details : String
  supporting_quotes : List String
  data_location : String
  deriving DecidableEq

/-- `CMMLResearchExtractor.extract_with_regex`: `None` unless the lowered
text mentions CMML; probe every metric with its pattern list; `None` when
no metric matched at all; otherwise the minimal payload with the captured
values (the ORR capture feeds only the any-match test, not the payload,
exactly as in the source). -/
def extract_with_regex (M : Matcher) (paper_content : String) : Option ExtractPayload :=
  let text := paper_content
  let lower := lowerStr text
  if !(strContains lower ("cmml")) && !(strContains lower ("chronic myelomonocytic leukemia")) then
    none
  else
    let cr := find_pct M crPatterns text
    let pr := find_pct M prPatterns text
    let mcr := find_pct M mcrPatterns text
    let mor := find_pct M morPatterns text
    let orr := find_pct M orrPatterns text
    let os_m := find_months M osPatterns text
    let pfs_m := find_months M pfsPatterns text
    let efs_m := find_months M efsPatterns text
    let sae := find_pct M saePatterns text
    let has_any := cr.isSome || pr.isSome || mcr.isSome || mor.isSome ||
      os_m.isSome || pfs_m.isSome || efs_m.isSome || sae.isSome || orr.isSome
    if !has_any then none
    else
      some
        { drug_name := ""
        , complete_response_rate := cr
        , partial_response_rate := pr
        , marrow_complete_response_rate := mcr
        , marrow_optimal_response_rate := mor
        , pfs_median_months := pfs_m
        , os_median_months := os_m
        , efs_median_months := efs_m
        , sae_frequency_percent := sae
        , ras_mutant_outcomes := RasOutcomes.allNull
        , non_ras_mutant_outcomes := RasOutcomes.allNull
        , cmml_sample_size := none
        , ras_mutant_sample_size := none
        , non_ras_mutant_sample_size := none
        , study_type := ""
        , has_cmml_data := true
        , key_findings := ""
        , patient_population := ""
        , treatment_details := ""
        , supporting_quotes := []
        , data_location := "Abstract" }

/-- Outcome of the generative call and response handling inside
`extract_clinical_data`: the service call raised; the response text was
empty; the text contained no top-level object (`find` returned -1);
`json.loads` on the sliced text raised; or a dict was parsed. -/
inductive GenResult where
  | svcError
  | emptyText
  | noJson
  | parseFail
  | parsed (p : ExtractPayload)
  deriving DecidableEq

/-- Whether the generative outcome is one of the failure paths that the
coordinator recovers from by falling back to the pattern extractor. -/
def GenResult.failed : GenResult → Bool
  | .svcError => true
  | .emptyText => true
  | .noJson => true
  | .parseFail => true
  | .parsed _ => false

/-- `CMMLResearchExtractor.extract_clinical_data`: regex extraction when the
generative model is off; on any generative failure, regex fallback on the
same content; on a parsed dict, `None` unless `has_cmml_data` is truthy,
else the dict itself (no further validation). -/
def extract_clinical_data (M : Matcher) (use_llm : Bool) (gen : GenResult)
    (paper_content : String) : Option ExtractPayload :=
  if !use_llm then extract_with_regex M paper_content
  else
    match gen with
    | .svcError => extract_with_regex M paper_content
    | .emptyText => extract_with_regex M paper_content
    | .noJson => extract_with_regex M paper_content
    | .parseFail => extract_with_regex M paper_content
    | .parsed p => if p.has_cmml_data then some p else none

/-! ### extract_clinical_efficacy_enhanced.py -/

/-- The study dict read by `extract_enhanced_clinical_efficacy` (`dict.get`
with a default for every key, so each key is optional). -/
structure StudyInfo where
  pmid : Option String
  title : Option String
  abstract : Option String
  citation : Option String
  drug : Option String
  url : Option String
  deriving DecidableEq

/-- The dict parsed from the generative response in
`extract_enhanced_clinical_efficacy` (each key read with `dict.get`, so
every field is optional; defaults are applied at record construction). -/
structure EnhPayload where
  complete_response : Option ℚ
  partial_response : Option ℚ
  marrow_complete_response : Option ℚ
  overall_response_rate : Option ℚ
  progression_free_survival_median : Option ℚ
  progression_free_survival_mean : Option ℚ
  progression_free_survival_range : Option String
  overall_survival_median : Option ℚ
  overall_survival_mean : Option ℚ
  overall_survival_range : Option String
  therapy_duration_median : Option ℚ
  therapy_duration_mean : Option ℚ
  therapy_duration_range : Option String
  therapy_cycles_median : Option ℚ
  therapy_cycles_mean : Option ℚ
  therapy_cycles_range : Option String
  total_patients : Option ℤ
  cmml_patients : Option ℤ
  any_grade_ae_rate : Option ℚ
  grade_3_4_ae_rate : Option ℚ
  serious_ae_rate : Option ℚ
  treatment_related_ae_rate : Option ℚ
  discontinuation_rate : Option ℚ
  dose_reduction_rate : Option ℚ
  supporting_quotes : Option (List String)
  efficacy_summary : Option String
  has_efficacy_data : Option Bool
  extraction_confidence : Option ℤ
  deriving DecidableEq

/-- The `EnhancedClinicalEfficacyData` dataclass. -/
structure EnhRecord where
  pmid : String
  citation : String
  url : String
  drug : String
  complete_response : Option ℚ
  partial_response : Option ℚ
  marrow_complete_response : Option ℚ
  overall_response_rate : Option ℚ
  progression_free_survival_median : Option ℚ
  progression_free_survival_mean : Option ℚ
  progression_free_survival_range : Option String
  overall_survival_median : Option ℚ
  overall_survival_mean : Option ℚ
  overall_survival_range : Option String
  therapy_duration_median : Option ℚ
  therapy_duration_mean : Option ℚ
  therapy_duration_range : Option String
  therapy_cycles_median : Option ℚ
  therapy_cycles_mean : Option ℚ
  therapy_cycles_range : Option String
  total_patients : Option ℤ
  cmml_patients : Option ℤ
  any_grade_ae_rate : Option ℚ
  grade_3_4_ae_rate : Option ℚ
  serious_ae_rate : Option ℚ
  treatment_related_ae_rate : Option ℚ
  discontinuation_rate : Option ℚ
  dose_reduction_rate : Option ℚ
  supporting_quotes : List String
  data_source_location : String
  extraction_confidence : ℤ
  efficacy_summary : String
  has_efficacy_data : Bool
  deriving DecidableEq

/-- `extract_enhanced_clinical_efficacy`: the generative call, response
cleanup and JSON parse all sit in one `try` block, modelled by the
`Except` argument.  On success the record copies every metric field
verbatim from the parsed dict (with the source's `dict.get` defaults); on
any exception the dataclass defaults are returned: `has_efficacy_data`
false, confidence 0, every metric `None`. -/
def extract_enhanced_clinical_efficacy (study : StudyInfo)
    (resp : Except Unit EnhPayload) : EnhRecord :=
  let pmid := study.pmid.getD ("")
  let url := study.url.getD ("https://pubmed.ncbi.nlm.nih.gov/" ++ pmid ++ "/")
  match resp with
  | .ok p =>
      { pmid := pmid
      , citation := study.citation.getD ("")
      , url := url
      , drug := study.drug.getD ("azacitidine")
      , complete_response := p.complete_response
      , partial_response := p.partial_response
      , marrow_complete_response := p.marrow_complete_response
      , overall_response_rate := p.overall_response_rate
      , progression_free_survival_median := p.progression_free_survival_median
      , progression_free_survival_mean := p.progression_free_survival_mean
      , progression_free_survival_range := p.progression_free_survival_range
      , overall_survival_median := p.overall_survival_median
      , overall_survival_mean := p.overall_survival_mean
      , overall_survival_range := p.overall_survival_range
      , therapy_duration_median := p.therapy_duration_median
      , therapy_duration_mean := p.therapy_duration_mean
      , therapy_duration_range := p.therapy_duration_range
      , therapy_cycles_median := p.therapy_cycles_median
      , therapy_cycles_mean := p.therapy_cycles_mean
      , therapy_cycles_range := p.therapy_cycles_range
      , total_patients := p.total_patients
      , cmml_patients := p.cmml_patients
      , any_grade_ae_rate := p.any_grade_ae_rate
      , grade_3_4_ae_rate := p.grade_3_4_ae_rate
      , serious_ae_rate := p.serious_ae_rate
      , treatment_related_ae_rate := p.treatment_related_ae_rate
      , discontinuation_rate := p.discontinuation_rate
      , dose_reduction_rate := p.dose_reduction_rate
      , supporting_quotes := p.supporting_quotes.getD []
      , data_source_location := "abstract"
      , extraction_confidence := p.extraction_confidence.getD 0
      , efficacy_summary := p.efficacy_summary.getD ("")
      , has_efficacy_data := p.has_efficacy_data.getD false }
  | .error _ =>
      { pmid := pmid
      , citation := study.citation.getD ("")
      , url := url
      , drug := study.drug.getD ("azacitidine")
      , complete_response := none
      , partial_response := none
      , marrow_complete_response := none
      , overall_response_rate := none
      , progression_free_survival_median := none
      , progression_free_survival_mean := none
      , progression_free_survival_range := none
      , overall_survival_median := none
      , overall_survival_mean := none
      , overall_survival_range := none
      , therapy_duration_median := none
      , therapy_duration_mean := none
      , therapy_duration_range := none
      , therapy_cycles_median := none
      , therapy_cycles_mean := none
      , therapy_cycles_range := none
      , total_patients := none
      , cmml_patients := none
      , any_grade_ae_rate := none
      , grade_3_4_ae_rate := none
      , serious_ae_rate := none
      , treatment_related_ae_rate := none
      , discontinuation_rate := none
      , dose_reduction_rate := none
      , supporting_quotes := []
      , data_source_location := "abstract"
      , extraction_confidence := 0
      , efficacy_summary := ""
      , has_efficacy_data := false }

/-! ### Concrete fixtures for witnesses and counterexamples -/

/-- A study record with every numeric field null. -/
def emptyStudy : Study :=
  { complete_response := none, partial_response := none
  , marrow_complete_response := none, sae_frequency := none
  , pfs_median := none, os_median := none }

/-- A study record reporting only a complete-response rate. -/
def crOnlyStudy (v : ℚ) : Study :=
  { complete_response := some v, partial_response := none
  , marrow_complete_response := none, sae_frequency := none
  , pfs_median := none, os_median := none }

/-- Concrete input data for the combined-rollup demonstration: two
azacitidine studies (CR 10 and 20) and one decitabine study (CR 60). -/
def exData : OutcomesData :=
  { azacitidine := [crOnlyStudy 10, crOnlyStudy 20]
  , decitabine := [crOnlyStudy 60]
  , hydroxyurea := [] }

/-- First record of the shared-identifier pair: confidence 0.6, two
populated fields. -/
def paperA : PaperRec := { pmid := "12345", confidence := 3 / 5, populated := 2 }

/-- Second record of the shared-identifier pair: same confidence 0.6, four
populated fields. -/
def paperB : PaperRec := { pmid := "12345", confidence := 3 / 5, populated := 4 }

/-- Matcher recording that no probe matches: the behaviour of `re.search`
over text that contains no digit followed by a percent sign or a months
unit. -/
def matcherNone : Matcher := fun _ _ => none

/-- Matcher recording the `re.search` outcomes over the text
`"CMML complete response 150%"`: the first CR pattern captures `150` (the
probe `\bcomplete\s+response[^\d%]*([0-9]+(?:\.[0-9]+)?)%` matches
`complete response 150%` with group(1) = `150`); no other probe of
`extract_with_regex` matches that text. -/
def matcher150 : Matcher := fun rx _ => if rx = crRegex1 then some 150 else none

/-- Matcher recording `re.search` outcomes over a text such as
`"CMML patients: CR 40% was observed"`: the first CR pattern fails (no
literal `complete response` phrase), the second CR pattern
`\bCR\b[^\d%]*([0-9]+(?:\.[0-9]+)?)%` captures `40`, and no other probe
matches. -/
def matcherSecondCR : Matcher := fun rx _ => if rx = crRegex2 then some 40 else none

/-- The payload `extract_with_regex` builds over
`"CMML complete response 150%"` with `matcher150`. -/
def pay150 : ExtractPayload :=
  { drug_name := ""
  , complete_response_rate := some 150
  , partial_response_rate := none
  , marrow_complete_response_rate := none
  , marrow_optimal_response_rate := none
  , pfs_median_months := none
  , os_median_months := none
  , efs_median_months := none
  , sae_frequency_percent := none
  , ras_mutant_outcomes := RasOutcomes.allNull
  , non_ras_mutant_outcomes := RasOutcomes.allNull
  , cmml_sample_size := none
  , ras_mutant_sample_size := none
  , non_ras_mutant_sample_size := none
  , study_type := ""
  , has_cmml_data := true
  , key_findings := ""
  , patient_population := ""
  , treatment_details := ""
  , supporting_quotes := []
  , data_location := "Abstract" }

/-- A study dict with every key absent. -/
def studyInfo0 : StudyInfo :=
  { pmid := none, title := none, abstract := none
  , citation := none, drug := none, url := none }

/-- A parsed generative payload that asserts no evidence yet carries a
numeric complete-response value — the shape the enhanced extractor copies
verbatim. -/
def badEnhPayload : EnhPayload :=
  { complete_response := some 20
  , partial_response := none
  , marrow_complete_response := none
  , overall_response_rate := none
  , progression_free_survival_median := none
  , progression_free_survival_mean := none
  , progression_free_survival_range := none
  , overall_survival_median := none
  , overall_survival_mean := none
  , overall_survival_range := none
  , therapy_duration_median := none
  , therapy_duration_mean := none
  , therapy_duration_range := none
  , therapy_cycles_median := none
  , therapy_cycles_mean := none
  , therapy_cycles_range := none
  , total_patients := none
  , cmml_patients := none
  , any_grade_ae_rate := none
  , grade_3_4_ae_rate := none
  , serious_ae_rate := none
  , treatment_related_ae_rate := none
  , discontinuation_rate := none
  , dose_reduction_rate := none
  , supporting_quotes := none
  , efficacy_summary := none
  , has_efficacy_data := some false
  , extraction_confidence := some 80 }

/-- Every metric field of an `EnhancedClinicalEfficacyData` record is null
(the no-evidence invariant's conclusion, spelled out field by field). -/
def EnhRecord.metricsAllNull (r : EnhRecord) : Prop :=
  r.complete_response = none ∧ r.partial_response = none ∧
  r.marrow_complete_response = none ∧ r.overall_response_rate = none ∧
  r.progression_free_survival_median = none ∧
  r.progression_free_survival_mean = none ∧
  r.progression_free_survival_range = none ∧
  r.overall_survival_median = none ∧ r.overall_survival_mean = none ∧
  r.overall_survival_range = none ∧
  r.therapy_duration_median = none ∧ r.therapy_duration_mean = none ∧
  r.therapy_duration_range = none ∧
  r.therapy_cycles_median = none ∧ r.therapy_cycles_mean = none ∧
  r.therapy_cycles_range = none ∧
  r.total_patients = none ∧ r.cmml_patients = none ∧
  r.any_grade_ae_rate = none ∧ r.grade_3_4_ae_rate = none ∧
  r.serious_ae_rate = none ∧ r.treatment_related_ae_rate = none ∧
  r.discontinuation_rate = none ∧ r.dose_reduction_rate = none

/-- Every metric field of the record equals the corresponding field of the
payload (the verbatim copy performed by the success path). -/
def EnhRecord.copiesMetricsFrom (r : EnhRecord) (p : EnhPayload) : Prop :=
  r.complete_response = p.complete_response ∧
  r.partial_response = p.partial_response ∧
  r.marrow_complete_response = p.marrow_complete_response ∧
  r.overall_response_rate = p.overall_response_rate ∧
  r.progression_free_survival_median = p.progression_free_survival_median ∧
  r.progression_free_survival_mean = p.progression_free_survival_mean ∧
  r.progression_free_survival_range = p.progression_free_survival_range ∧
  r.overall_survival_median = p.overall_survival_median ∧
  r.overall_survival_mean = p.overall_survival_mean ∧
  r.overall_survival_range = p.overall_survival_range ∧
  r.therapy_duration_median = p.therapy_duration_median ∧
  r.therapy_duration_mean = p.therapy_duration_mean ∧
  r.therapy_duration_range = p.therapy_duration_range ∧
  r.therapy_cycles_median = p.therapy_cycles_median ∧
  r.therapy_cycles_mean = p.therapy_cycles_mean ∧
  r.therapy_cycles_range = p.therapy_cycles_range ∧
  r.total_patients = p.total_patients ∧
  r.cmml_patients = p.cmml_patients ∧
  r.any_grade_ae_rate = p.any_grade_ae_rate ∧
  r.grade_3_4_ae_rate = p.grade_3_4_ae_rate ∧
  r.serious_ae_rate = p.serious_ae_rate ∧
  r.treatment_related_ae_rate = p.treatment_related_ae_rate ∧
  r.discontinuation_rate = p.discontinuation_rate ∧
  r.dose_reduction_rate = p.dose_reduction_rate

/-! ### Helper lemmas -/

theorem roundHalfEven_intCast (n : ℤ) : roundHalfEven (n : ℚ) = n := by
  unfold roundHalfEven
  norm_num [Int.floor_intCast]

theorem round2_intCast (n : ℤ) : round2 (n : ℚ) = n := by
  unfold round2
  have h : ((n : ℚ) * 100) = ((n * 100 : ℤ) : ℚ) := by push_cast; ring
  rw [h, roundHalfEven_intCast]
  push_cast
  exact mul_div_cancel_right₀ _ (by norm_num)

theorem round2_eq_intCast (q : ℚ) (n : ℤ) (h : q = (n : ℚ)) : round2 q = (n : ℚ) := by
  rw [h, round2_intCast]

theorem pyOr_zero (v : Option ℚ) : pyOr v 0 = v.getD 0 := by
  cases v with
  | none => rfl
  | some x =>
      by_cases hx : x = 0
      · simp [pyOr, hx]
      · simp [pyOr, hx]

theorem filterMap_id_map_some (l : List ℚ) : (l.map some).filterMap id = l := by
  induction l with
  | nil => rfl
  | cons x xs ih => simp [ih]

/-! ### Claim theorems -/

/-- Claim C1: the composite overall-response-rate of the aggregation layer
equals the sum of `complete_response`, `partial_response` and the marrow
complete response, with a null contributing term counting as zero at
composite-construction time; in particular `complete_response = 10`,
`partial_response = null`, `marrow_complete_response = 5` yields 15. -/
theorem orr_composite_sums_null_as_zero :
    (∀ s : Study, get_orr s =
      s.complete_response.getD 0 + s.partial_response.getD 0 +
        s.marrow_complete_response.getD 0)
    ∧ get_orr (Study.mk (some 10) none (some 5) none none none) = 15 := by
  constructor
  · intro s
    unfold get_orr
    rw [pyOr_zero, pyOr_zero, pyOr_zero]
  · norm_num [get_orr, pyOr]

/-- Claim C6: aggregation collects only non-null values; an empty
collection yields an explicit no-data sentinel that is distinguishable
from a result computed from an observed `0.0`; a selector matching zero
records yields the sentinel for every metric. -/
theorem aggregation_empty_sentinel :
    (∀ data : List (Option ℚ), data.filterMap id = [] →
      calculate_stats data = { mean := StatValue.na, median := StatValue.na })
    ∧ (∀ data : List (Option ℚ),
      calculate_stats data = calculate_stats ((data.filterMap id).map some))
    ∧ calculate_stats [some 0] ≠ { mean := StatValue.na, median := StatValue.na }
    ∧ (∀ values : List (Option ℚ), values.filterMap id = [] →
      safe_stats values = noDataStats)
    ∧ safe_stats [some 0] ≠ noDataStats
    ∧ productStats [] =
      { efficacyCR := { mean := StatValue.na, median := StatValue.na }
      , efficacyORR := { mean := StatValue.na, median := StatValue.na }
      , adverseSAE := { mean := StatValue.na, median := StatValue.na }
      , pfs := { mean := StatValue.na, median := StatValue.na }
      , os := { mean := StatValue.na, median := StatValue.na } } := by
  refine ⟨?_, ?_, ?_, ?_, ?_, ?_⟩
  · intro data h
    simp only [calculate_stats, h]
    split <;> simp
  · intro data
    by_cases h : data.filterMap id = []
    · rw [h]
      simp only [calculate_stats, h]
      split <;> simp
    · have hd : data.isEmpty = false := by
        rcases data with _ | ⟨x, xs⟩
        · exact absurd rfl h
        · rfl
      have h2 : (data.filterMap id).isEmpty = false := by
        cases hl : data.filterMap id with
        | nil => exact absurd hl h
        | cons a as => rfl
      have h1 : ((data.filterMap id).map some).isEmpty = false := by
        cases hl : data.filterMap id with
        | nil => exact absurd hl h
        | cons a as => rfl
      simp only [calculate_stats, filterMap_id_map_some, hd, h1, h2]
  · simp [calculate_stats]
  · intro values h
    simp only [safe_stats, h]
    simp
  · simp [safe_stats, noDataStats]
  · rfl

/-- Claim C7: for every non-empty collection, `safe_stats` reports the
count of collected values, the arithmetic mean and the order-statistic
median of the collection (rounded to two decimals); the median is taken on
a sorted rearrangement of the collection, and for an even count it is the
arithmetic mean of the two central order statistics.  In particular
`[10, 20, 30, 40]` yields median 25, mean 25, count 4. -/
theorem safe_stats_standard_mean_median (values : List (Option ℚ))
    (h : values.filterMap id ≠ []) :
    (safe_stats values).count = (values.filterMap id).length
    ∧ (safe_stats values).mean = some (round2 (pymean (values.filterMap id)))
    ∧ (safe_stats values).median = some (round2 (pymedian (values.filterMap id)))
    ∧ (sortQ (values.filterMap id)).Perm (values.filterMap id)
    ∧ List.Sorted (fun a b => a ≤ b) (sortQ (values.filterMap id))
    ∧ ((values.filterMap id).length % 2 = 0 →
      pymedian (values.filterMap id) =
        ((sortQ (values.filterMap id)).getD ((values.filterMap id).length / 2 - 1) 0
          + (sortQ (values.filterMap id)).getD ((values.filterMap id).length / 2) 0) / 2) := by
  have hne : ¬ (values.filterMap id).isEmpty = true := by simpa using h
  refine ⟨?_, ?_, ?_, ?_, ?_, ?_⟩
  · simp only [safe_stats]
    rw [if_neg hne]
  · simp only [safe_stats]
    rw [if_neg hne]
  · simp only [safe_stats]
    rw [if_neg hne]
  · exact List.perm_insertionSort _ _
  · exact List.sorted_insertionSort _ _
  · intro he
    unfold pymedian
    rw [if_neg (by omega)]

/-- Claim C7 witness: the concrete collection `[10, 20, 30, 40]`. -/
theorem safe_stats_standard_mean_median_witness :
    (safe_stats [some 10, some 20, some 30, some 40]).count = 4
    ∧ (safe_stats [some 10, some 20, some 30, some 40]).median = some 25
    ∧ (safe_stats [some 10, some 20, some 30, some 40]).mean = some 25 := by
  have h := safe_stats_standard_mean_median [some 10, some 20, some 30, some 40] (by simp)
  obtain ⟨hc, hm, hmed, -, -, -⟩ := h
  refine ⟨?_, ?_, ?_⟩
  · rw [hc]
    rfl
  · rw [hmed]
    have he : round2 (pymedian ([some 10, some 20, some 30, some 40].filterMap id)) = ((25 : ℤ) : ℚ) := by
      apply round2_eq_intCast
      show pymedian [(10 : ℚ), 20, 30, 40] = ((25 : ℤ) : ℚ)
      norm_num [pymedian, sortQ, List.insertionSort, List.orderedInsert, List.getD]
    rw [he]
    norm_num
  · rw [hm]
    have he : round2 (pymean ([some 10, some 20, some 30, some 40].filterMap id)) = ((25 : ℤ) : ℚ) := by
      apply round2_eq_intCast
      show pymean [(10 : ℚ), 20, 30, 40] = ((25 : ℤ) : ℚ)
      norm_num [pymean]
    rw [he]
    norm_num

theorem filterMap_id_map_some_comp {α : Type} (f : α → ℚ) (l : List α) :
    (l.map (fun t => some (f t))).filterMap id = l.map f := by
  induction l with
  | nil => rfl
  | cons x xs ih => simp [ih]

theorem length_filterMap_id_le (l : List (Option ℚ)) :
    (l.filterMap id).length ≤ l.length := by
  induction l with
  | nil => simp
  | cons x xs ih => cases x <;> simp [List.filterMap_cons] <;> omega

theorem length_filterMap_lt {α : Type} (f : α → Option ℚ) (l : List α) (s : α)
    (hs : s ∈ l) (hnone : f s = none) :
    ((l.map f).filterMap id).length < l.length := by
  induction l with
  | nil => cases hs
  | cons x xs ih =>
    rcases List.mem_cons.mp hs with h | h
    · subst h
      simp only [List.map_cons, List.filterMap_cons, hnone, id_eq, List.length_cons]
      have hle := length_filterMap_id_le (xs.map f)
      rw [List.length_map] at hle
      omega
    · cases hfx : f x with
      | none =>
        simp only [List.map_cons, List.filterMap_cons, hfx, id_eq, List.length_cons]
        have := ih h
        omega
      | some v =>
        simp only [List.map_cons, List.filterMap_cons, hfx, id_eq, List.length_cons]
        have := ih h
        omega

theorem calculate_stats_mean_of_ne (data : List (Option ℚ))
    (h : data.filterMap id ≠ []) :
    (calculate_stats data).mean = StatValue.num (round2 (pymean (data.filterMap id))) := by
  have hd : data.isEmpty = false := by
    rcases data with _ | ⟨x, xs⟩
    · exact absurd rfl h
    · rfl
  have h2 : (data.filterMap id).isEmpty = false := by
    cases hl : data.filterMap id with
    | nil => exact absurd hl h
    | cons a as => rfl
  simp only [calculate_stats, hd, h2]
  rfl

/-- Claim C8: the combined multi-drug rollup equals the per-metric
aggregation applied to the union (concatenation) of the two drugs' record
sets; it is not a combination of each drug's separately computed
statistics — on concrete data the pooled CR mean is 30 while the per-drug
CR means are 15 and 60, whose unweighted average would be 37.5. -/
theorem combined_aggregation_is_pooled :
    (∀ data : OutcomesData,
      analyze_combined data = combinedPerSpec data.azacitidine data.decitabine)
    ∧ (analyze_combined exData).efficacyCR.mean = StatValue.num 30
    ∧ (productStats exData.azacitidine).efficacyCR.mean = StatValue.num 15
    ∧ (productStats exData.decitabine).efficacyCR.mean = StatValue.num 60
    ∧ StatValue.num (30 : ℚ) ≠ StatValue.num (((15 : ℚ) + 60) / 2) := by
  refine ⟨?_, ?_, ?_, ?_, ?_⟩
  · intro data
    rfl
  · have e1 : (analyze_combined exData).efficacyCR =
        calculate_stats [some 10, some 20, some 60] := rfl
    rw [e1, calculate_stats_mean_of_ne _ (by simp)]
    congr 1
    have he : round2 (pymean (([some 10, some 20, some 60] : List (Option ℚ)).filterMap id)) = ((30 : ℤ) : ℚ) := by
      apply round2_eq_intCast
      show pymean [(10 : ℚ), 20, 60] = ((30 : ℤ) : ℚ)
      norm_num [pymean]
    rw [he]
    norm_num
  · have e1 : (productStats exData.azacitidine).efficacyCR =
        calculate_stats [some 10, some 20] := rfl
    rw [e1, calculate_stats_mean_of_ne _ (by simp)]
    congr 1
    have he : round2 (pymean (([some 10, some 20] : List (Option ℚ)).filterMap id)) = ((15 : ℤ) : ℚ) := by
      apply round2_eq_intCast
      show pymean [(10 : ℚ), 20] = ((15 : ℤ) : ℚ)
      norm_num [pymean]
    rw [he]
    norm_num
  · have e1 : (productStats exData.decitabine).efficacyCR =
        calculate_stats [some 60] := rfl
    rw [e1, calculate_stats_mean_of_ne _ (by simp)]
    congr 1
    have he : round2 (pymean (([some 60] : List (Option ℚ)).filterMap id)) = ((60 : ℤ) : ℚ) := by
      apply round2_eq_intCast
      show pymean [(60 : ℚ)] = ((60 : ℤ) : ℚ)
      norm_num [pymean]
    rw [he]
    norm_num
  · intro hcontra
    rw [StatValue.num.injEq] at hcontra
    norm_num at hcontra

/-- Claim C10: a study whose three response components are all null gets
composite ORR 0, and that 0 is included as an observed value in the ORR
aggregation list, which always has one entry per study (nothing is
filtered out); by contrast, null values of other metrics are excluded
before aggregation, so a study with a null CR makes the CR list strictly
shorter than the study list. -/
theorem orr_includes_all_null_records (studies : List Study) (s : Study)
    (hs : s ∈ studies) (h1 : s.complete_response = none)
    (h2 : s.partial_response = none) (h3 : s.marrow_complete_response = none) :
    get_orr s = 0
    ∧ (studies.map (fun t => some (get_orr t))).filterMap id = studies.map get_orr
    ∧ ((studies.map (fun t => some (get_orr t))).filterMap id).length = studies.length
    ∧ (0 : ℚ) ∈ (studies.map (fun t => some (get_orr t))).filterMap id
    ∧ ((studies.map (fun t => t.complete_response)).filterMap id).length < studies.length := by
  have horr : get_orr s = 0 := by
    rw [get_orr, h1, h2, h3]
    norm_num [pyOr]
  refine ⟨horr, filterMap_id_map_some_comp _ _, ?_, ?_, ?_⟩
  · rw [filterMap_id_map_some_comp, List.length_map]
  · rw [filterMap_id_map_some_comp]
    exact List.mem_map.mpr ⟨s, hs, horr⟩
  · exact length_filterMap_lt _ _ s hs h1

/-- Claim C10 witness: a single study with all three response components
null. -/
theorem orr_includes_all_null_records_witness :
    get_orr emptyStudy = 0
    ∧ (0 : ℚ) ∈ (([emptyStudy].map (fun t => some (get_orr t))).filterMap id)
    ∧ (([emptyStudy].map (fun t => t.complete_response)).filterMap id).length < 1 := by
  have h := orr_includes_all_null_records [emptyStudy] emptyStudy (by simp) rfl rfl rfl
  exact ⟨h.1, h.2.2.2.1, by simpa using h.2.2.2.2⟩

/-- Claim C6 witness: two null entries for one metric and an empty
collection for the other aggregator. -/
theorem aggregation_empty_sentinel_witness :
    calculate_stats [none, none] = { mean := StatValue.na, median := StatValue.na }
    ∧ safe_stats [] = noDataStats := by
  exact ⟨aggregation_empty_sentinel.1 [none, none] rfl,
    aggregation_empty_sentinel.2.2.2.1 [] rfl⟩

/-- Claim C8 witness: the pooled rollup coincides with the spec-side
union-then-aggregate computation on the concrete data set. -/
theorem combined_aggregation_is_pooled_witness :
    analyze_combined exData = combinedPerSpec exData.azacitidine exData.decitabine :=
  combined_aggregation_is_pooled.1 exData

theorem dedupLoop_find (ps : List PaperRec) (seen : List String) (k : String) :
    (dedupLoop ps seen).find? (fun p => p.pmid == k) =
      if k ∈ seen then none else ps.find? (fun p => p.pmid == k) := by
  induction ps generalizing seen with
  | nil => simp [dedupLoop]
  | cons p ps ih =>
    by_cases hm : p.pmid ∈ seen
    · simp only [dedupLoop]
      rw [if_pos hm, ih]
      by_cases hk : k ∈ seen
      · simp [hk]
      · have hne : (p.pmid == k) = false := by
          simp only [beq_eq_false_iff_ne, ne_eq]
          intro hpk
          exact hk (hpk ▸ hm)
        rw [if_neg hk, if_neg hk, List.find?_cons_of_neg _ (by simp [hne])]
    · simp only [dedupLoop]
      rw [if_neg hm]
      by_cases hpk : p.pmid = k
      · have hk : k ∉ seen := hpk ▸ hm
        rw [List.find?_cons_of_pos _ (by simp [hpk]), if_neg hk,
          List.find?_cons_of_pos _ (by simp [hpk])]
      · rw [List.find?_cons_of_neg _ (by simp [hpk]), ih]
        by_cases hk : k ∈ seen
        · rw [if_pos (List.mem_cons_of_mem _ hk), if_pos hk]
        · have hk2 : k ∉ p.pmid :: seen := by
            intro hc
            rcases List.mem_cons.mp hc with hc | hc
            · exact hpk hc.symm
            · exact hk hc
          rw [if_neg hk2, if_neg hk, List.find?_cons_of_neg _ (by simp [hpk])]

theorem dedupLoop_mem_pmid (ps : List PaperRec) (seen : List String) :
    ∀ q ∈ dedupLoop ps seen, q.pmid ∉ seen := by
  induction ps generalizing seen with
  | nil => intro q hq; simp [dedupLoop] at hq
  | cons p ps ih =>
    intro q hq
    simp only [dedupLoop] at hq
    by_cases hm : p.pmid ∈ seen
    · rw [if_pos hm] at hq
      exact ih seen q hq
    · rw [if_neg hm] at hq
      rcases List.mem_cons.mp hq with h | h
      · exact h ▸ hm
      · intro hs
        exact ih (p.pmid :: seen) q h (List.mem_cons_of_mem _ hs)

theorem dedupLoop_pairwise (ps : List PaperRec) (seen : List String) :
    (dedupLoop ps seen).Pairwise (fun a b => a.pmid ≠ b.pmid) := by
  induction ps generalizing seen with
  | nil => exact List.Pairwise.nil
  | cons p ps ih =>
    simp only [dedupLoop]
    by_cases hm : p.pmid ∈ seen
    · rw [if_pos hm]
      exact ih seen
    · rw [if_neg hm]
      refine List.Pairwise.cons ?_ (ih _)
      intro b hb he
      apply dedupLoop_mem_pmid ps (p.pmid :: seen) b hb
      rw [← he]
      exact List.mem_cons_self _ _

theorem dedupLoop_subset (ps : List PaperRec) (seen : List String) :
    ∀ q ∈ dedupLoop ps seen, q ∈ ps := by
  induction ps generalizing seen with
  | nil => intro q hq; simp [dedupLoop] at hq
  | cons p ps ih =>
    intro q hq
    simp only [dedupLoop] at hq
    by_cases hm : p.pmid ∈ seen
    · rw [if_pos hm] at hq
      exact List.mem_cons_of_mem _ (ih seen q hq)
    · rw [if_neg hm] at hq
      rcases List.mem_cons.mp hq with h | h
      · exact h ▸ List.mem_cons_self _ _
      · exact List.mem_cons_of_mem _ (ih _ q h)

/-- Claim C2 (amended): when several records share an identifier, the
deduplication loop keeps the first encountered, regardless of confidence
or populated-field count — for every identifier, the surviving record is
exactly the first record of the input with that identifier; surviving
identifiers are pairwise distinct and every surviving record comes from
the input. -/
theorem dedup_keeps_first_encountered :
    (∀ (papers : List PaperRec) (k : String),
      (dedupPapers papers).find? (fun p => p.pmid == k) =
        papers.find? (fun p => p.pmid == k))
    ∧ (∀ papers : List PaperRec,
      (dedupPapers papers).Pairwise (fun a b => a.pmid ≠ b.pmid))
    ∧ (∀ papers : List PaperRec, ∀ q ∈ dedupPapers papers, q ∈ papers) := by
  refine ⟨?_, ?_, ?_⟩
  · intro papers k
    rw [dedupPapers, dedupLoop_find]
    simp
  · intro papers
    exact dedupLoop_pairwise papers []
  · intro papers
    exact dedupLoop_subset papers []

/-- Claim C2 witness: the shared-identifier pair, looked up by its key. -/
theorem dedup_keeps_first_encountered_witness :
    (dedupPapers [paperA, paperB]).find? (fun p => p.pmid == "12345") =
      [paperA, paperB].find? (fun p => p.pmid == "12345")
    ∧ paperA ∈ [paperA, paperB] := by
  refine ⟨dedup_keeps_first_encountered.1 [paperA, paperB] "12345", ?_⟩
  exact dedup_keeps_first_encountered.2.2 [paperA, paperB] paperA
    (by simp [dedupPapers, dedupLoop, paperA, paperB])

/-- Claim C2 counterexample: two records share identifier `"12345"` with
equal confidence 0.6, the first with 2 populated fields and the second
with 4; the code keeps the first, not the one with 4 populated fields as
the claim states. -/
theorem dedup_tiebreak_counterexample :
    dedupPapers [paperA, paperB] = [paperA]
    ∧ dedupPapers [paperA, paperB] ≠ [paperB]
    ∧ paperA.confidence = paperB.confidence
    ∧ paperA.populated = 2 ∧ paperB.populated = 4 := by
  have he : dedupPapers [paperA, paperB] = [paperA] := by
    simp [dedupPapers, dedupLoop, paperA, paperB]
  refine ⟨he, ?_, rfl, rfl, rfl⟩
  rw [he]
  simp [paperA, paperB]

/-- Claim C3 (amended): on any generative failure (service error, empty
response, missing or unparseable object) — or with the generative model
disabled — the coordinator returns exactly the pattern extraction of the
same document, and (being a total function) never raises; it does not
always produce a record: the pattern fallback can itself yield `None`, in
which case the document is skipped, not the run aborted. -/
theorem extractor_fallback_on_generative_failure (M : Matcher) (use_llm : Bool)
    (g : GenResult) (content : String)
    (h : g.failed = true ∨ use_llm = false) :
    extract_clinical_data M use_llm g content = extract_with_regex M content := by
  cases use_llm with
  | false => rfl
  | true =>
    rcases h with h | h
    · cases g with
      | svcError => rfl
      | emptyText => rfl
      | noJson => rfl
      | parseFail => rfl
      | parsed p => simp [GenResult.failed] at h
    · exact Bool.noConfusion h

/-- Claim C3 witness: a service error over a CMML document falls back to
the pattern extractor. -/
theorem extractor_fallback_on_generative_failure_witness :
    extract_clinical_data matcherNone true GenResult.svcError ("CMML complete response 20%") =
      extract_with_regex matcherNone ("CMML complete response 20%") :=
  extractor_fallback_on_generative_failure matcherNone true GenResult.svcError
    ("CMML complete response 20%") (Or.inl rfl)

/-- Claim C3 counterexample: a generative service error over a document
that never mentions CMML produces no record at all (`None`), not a
pattern-method record with `has_evidence = false`. -/
theorem extractor_may_yield_no_record :
    extract_clinical_data matcherNone true GenResult.svcError ("irrelevant text") = none := by
  decide

/-- Claim C4 (amended): the extractor performs no range validation.  Every
numeric field of a pattern-extraction payload is exactly the raw
first-match capture of its pattern list, and a parsed generative payload
asserting CMML data is returned verbatim — an out-of-range value is
retained, never nulled. -/
theorem extractor_no_range_validation (M : Matcher) (text : String)
    (p : ExtractPayload) (h : extract_with_regex M text = some p) :
    p.complete_response_rate = find_pct M crPatterns text
    ∧ p.partial_response_rate = find_pct M prPatterns text
    ∧ p.sae_frequency_percent = find_pct M saePatterns text
    ∧ p.os_median_months = find_months M osPatterns text
    ∧ p.pfs_median_months = find_months M pfsPatterns text
    ∧ (∀ q : ExtractPayload, q.has_cmml_data = true →
      extract_clinical_data M true (GenResult.parsed q) text = some q) := by
  simp only [extract_with_regex] at h
  split at h
  · exact absurd h (by simp)
  · split at h
    · exact absurd h (by simp)
    · rw [Option.some.injEq] at h
      subst h
      refine ⟨rfl, rfl, rfl, rfl, rfl, ?_⟩
      intro q hq
      simp [extract_clinical_data, hq]

/-- Claim C4 witness: the 150% capture is copied into the payload. -/
theorem extractor_no_range_validation_witness :
    extract_with_regex matcher150 ("CMML complete response 150%") = some pay150
    ∧ pay150.complete_response_rate =
      find_pct matcher150 crPatterns ("CMML complete response 150%") :=
  ⟨by decide,
    (extractor_no_range_validation matcher150 ("CMML complete response 150%")
      pay150 (by decide)).1⟩

/-- Claim C4 counterexample: over `"CMML complete response 150%"` the
pattern extractor (first CR pattern captures 150, per `re.search`) returns
a record whose complete-response percentage is 150, outside `[0, 100]`. -/
theorem range_invariant_counterexample :
    (∃ p : ExtractPayload,
      extract_with_regex matcher150 ("CMML complete response 150%") = some p
      ∧ p.complete_response_rate = some 150)
    ∧ ¬ ((150 : ℚ) ≤ 100) := by
  exact ⟨⟨pay150, by decide, rfl⟩, by norm_num⟩

/-- Claim C5 (amended): a record produced by the enhanced extractor's
exception path has `has_efficacy_data = false` and every metric field
null; a success-path record copies `has_efficacy_data` and every metric
field verbatim from the parsed payload, so the no-evidence invariant holds
only when the payload itself satisfies it. -/
theorem no_evidence_nulls_on_error_path :
    (∀ study : StudyInfo,
      (extract_enhanced_clinical_efficacy study (Except.error ())).has_efficacy_data = false
      ∧ (extract_enhanced_clinical_efficacy study (Except.error ())).metricsAllNull)
    ∧ (∀ (study : StudyInfo) (p : EnhPayload),
      (extract_enhanced_clinical_efficacy study (Except.ok p)).has_efficacy_data =
        p.has_efficacy_data.getD false
      ∧ (extract_enhanced_clinical_efficacy study (Except.ok p)).copiesMetricsFrom p) := by
  constructor
  · intro study
    exact ⟨rfl, rfl, rfl, rfl, rfl, rfl, rfl, rfl, rfl, rfl, rfl, rfl, rfl,
      rfl, rfl, rfl, rfl, rfl, rfl, rfl, rfl, rfl, rfl, rfl, rfl⟩
  · intro study p
    exact ⟨rfl, rfl, rfl, rfl, rfl, rfl, rfl, rfl, rfl, rfl, rfl, rfl, rfl,
      rfl, rfl, rfl, rfl, rfl, rfl, rfl, rfl, rfl, rfl, rfl, rfl⟩

/-- Claim C5 counterexample: a parsed payload with
`has_efficacy_data = false` and `complete_response = 20` yields a record
with `has_evidence` false whose complete-response field is populated, not
null. -/
theorem no_evidence_invariant_counterexample :
    (extract_enhanced_clinical_efficacy studyInfo0 (Except.ok badEnhPayload)).has_efficacy_data = false
    ∧ (extract_enhanced_clinical_efficacy studyInfo0 (Except.ok badEnhPayload)).complete_response = some 20
    ∧ (some (20 : ℚ) : Option ℚ) ≠ none := by
  exact ⟨rfl, rfl, by simp⟩

theorem find_pct_eq_of_first (M : Matcher) (text : String) :
    ∀ (patterns : List String) (i : ℕ) (hi : i < patterns.length),
      (∀ (j : ℕ) (hj : j < i), M (patterns.get ⟨j, lt_trans hj hi⟩) text = none) →
      (M (patterns.get ⟨i, hi⟩) text).isSome = true →
      find_pct M patterns text = M (patterns.get ⟨i, hi⟩) text := by
  intro patterns
  induction patterns with
  | nil => intro i hi; exact absurd hi (by simp)
  | cons rx rest ih =>
    intro i hi hprev hsome
    cases i with
    | zero =>
      have hsome0 : (M rx text).isSome = true := hsome
      cases hm : M rx text with
      | none => rw [hm] at hsome0; simp at hsome0
      | some v => simp only [find_pct, hm]; exact hm.symm
    | succ n =>
      have h0 : M rx text = none := hprev 0 (Nat.succ_pos n)
      have hn : n < rest.length := by simpa using hi
      have hprev2 : ∀ (j : ℕ) (hj : j < n), M (rest.get ⟨j, lt_trans hj hn⟩) text = none :=
        fun j hj => hprev (j + 1) (Nat.succ_lt_succ hj)
      have hsome2 : (M (rest.get ⟨n, hn⟩) text).isSome = true := hsome
      simp only [find_pct, h0]
      exact ih n hn hprev2 hsome2

theorem find_pct_eq_none_of_all_none (M : Matcher) (text : String) :
    ∀ patterns : List String, (∀ rx ∈ patterns, M rx text = none) →
      find_pct M patterns text = none := by
  intro patterns
  induction patterns with
  | nil => intro _; rfl
  | cons rx rest ih =>
    intro hall
    have h0 : M rx text = none := hall rx (List.mem_cons_self _ _)
    simp only [find_pct, h0]
    exact ih (fun r hr => hall r (List.mem_cons_of_mem _ hr))

theorem find_months_eq_find_pct (M : Matcher) (patterns : List String) (text : String) :
    find_months M patterns text = find_pct M patterns text := by
  induction patterns with
  | nil => rfl
  | cons rx rest ih =>
    simp only [find_months, find_pct]
    cases M rx text with
    | none => exact ih
    | some v => rfl

/-- Claim C9: for every metric, the pattern scan returns the capture of the
first pattern in its fixed priority list that matches, ignoring all later
matches of the same metric; when no pattern matches, the result is `None`
(a null field, not an error) — and the same holds for the months scan. -/
theorem pattern_first_match_wins (M : Matcher) (text : String) :
    (∀ (patterns : List String) (i : ℕ) (hi : i < patterns.length),
      (∀ (j : ℕ) (hj : j < i), M (patterns.get ⟨j, lt_trans hj hi⟩) text = none) →
      (M (patterns.get ⟨i, hi⟩) text).isSome = true →
      find_pct M patterns text = M (patterns.get ⟨i, hi⟩) text)
    ∧ (∀ patterns : List String, (∀ rx ∈ patterns, M rx text = none) →
      find_pct M patterns text = none)
    ∧ (∀ (patterns : List String) (i : ℕ) (hi : i < patterns.length),
      (∀ (j : ℕ) (hj : j < i), M (patterns.get ⟨j, lt_trans hj hi⟩) text = none) →
      (M (patterns.get ⟨i, hi⟩) text).isSome = true →
      find_months M patterns text = M (patterns.get ⟨i, hi⟩) text)
    ∧ (∀ patterns : List String, (∀ rx ∈ patterns, M rx text = none) →
      find_months M patterns text = none) := by
  refine ⟨find_pct_eq_of_first M text, find_pct_eq_none_of_all_none M text, ?_, ?_⟩
  · intro patterns i hi hprev hsome
    rw [find_months_eq_find_pct]
    exact find_pct_eq_of_first M text patterns i hi hprev hsome
  · intro patterns hall
    rw [find_months_eq_find_pct]
    exact find_pct_eq_none_of_all_none M text patterns hall

/-- Claim C9 witness: over a text where only the second CR pattern matches
(capturing 40), the scan returns that capture. -/
theorem pattern_first_match_wins_witness :
    find_pct matcherSecondCR crPatterns ("CMML patients: CR 40% was observed") =
      matcherSecondCR (crPatterns.get ⟨1, by decide⟩) ("CMML patients: CR 40% was observed") := by
  apply (pattern_first_match_wins matcherSecondCR ("CMML patients: CR 40% was observed")).1
  · intro j hj
    have hj0 : j = 0 := by omega
    subst hj0
    show matcherSecondCR (crPatterns.get ⟨0, by decide⟩)
      ("CMML patients: CR 40% was observed") = none
    decide
  · decide

end Parca
